import Mathlib

/-!
Shallow embedding of the progress-bar subsystem of `prompt_toolkit`
(`shortcuts/progress_bar/base.py`) and of the output-backend selection
(`output/defaults.py`), together with theorems settling the specification
claims about them.

Python floats produced by `/` on small integers are modelled as exact
rationals (`ℚ`); Python exceptions are modelled with `Except String`;
object identity (used by `list.remove`) is modelled by a numeric `id`
carried by each counter, and the registry `ProgressBar.counters` is the
list of those ids in insertion order.
-/

/-- Model of a data source passed to the progress bar: its items together
with whether the source supports `len` (Python `Sized`); `sized = false`
models a generator / unknown-length iterable for which `len` raises
`TypeError`. -/
structure DataSource (α : Type) where
  items : List α
  sized : Bool
deriving Repr, DecidableEq

/-- Model of `ProgressBarCounter`: the fields of `__init__` that the claims
concern. `start_time` is kept abstract: the elapsed time is instead passed
explicitly to the metric getters. `id` models Python object identity. -/
structure ProgressBarCounter (α : Type) where
  id : Nat
  label : String
  current : Nat
  total : Option Nat
  done : Bool
  remove_when_done : Bool
  data : Option (DataSource α)
deriving Repr, DecidableEq

/-- Model of `ProgressBarCounter.__init__`: `current = 0`, `done = False`,
and `total` is the explicitly supplied total when given, otherwise
`len(data)` when `data` supports `len`, otherwise `None` (the `TypeError`
from `len` is caught and mapped to `None`). -/
def mkCounter (α : Type) (id : Nat) (data : Option (DataSource α))
    (label : String) (remove_when_done : Bool) (total : Option Nat) :
    ProgressBarCounter α :=
  { id := id
    label := label
    current := 0
    total :=
      match total with
      | some t => some t
      | none =>
        match data with
        | some d => if d.sized then some d.items.length else none
        | none => none
    done := false
    remove_when_done := remove_when_done
    data := data }

/-- Model of the mutable state of a `ProgressBar` that the claims concern:
the registry `self.counters` (insertion-ordered counter ids) and the number
of repaint requests handed to the app loop by `invalidate()`. -/
structure ProgressBarState where
  registry : List Nat
  invalidations : Nat
deriving Repr, DecidableEq

/-- Model of `ProgressBar.invalidate`: `call_soon_threadsafe(app.invalidate)`
schedules one repaint request on the app loop without blocking; modelled as
counting the scheduled requests. -/
def invalidate (s : ProgressBarState) : ProgressBarState :=
  { s with invalidations := s.invalidations + 1 }

/-- Model of `ProgressBar.__call__`: construct a counter (with a fresh id)
and append it to the registry; the counter (whose `__iter__` is the
iteration wrapper) is returned. -/
def pbCall (α : Type) (s : ProgressBarState) (nextId : Nat)
    (data : Option (DataSource α)) (label : String)
    (remove_when_done : Bool) (total : Option Nat) :
    ProgressBarCounter α × ProgressBarState :=
  let c := mkCounter α nextId data label remove_when_done total
  (c, { s with registry := s.registry ++ [c.id] })

/-- Model of Python `list.remove(x)`: remove the first occurrence of `x`,
raising `ValueError` when `x` is absent. -/
def pyListRemove (l : List Nat) (x : Nat) : Except String (List Nat) :=
  if x ∈ l then .ok (l.erase x) else .error "ValueError"

/-- Model of the `finally` block of `ProgressBarCounter.__iter__`: set
`done = True`, then, when `remove_when_done`, call
`self.progress_bar.counters.remove(self)` (which can raise `ValueError`
when the counter is no longer in the registry). -/
def iterCleanup (α : Type) (c : ProgressBarCounter α) (s : ProgressBarState) :
    Except String (ProgressBarCounter α × ProgressBarState) :=
  let c' := { c with done := true }
  if c'.remove_when_done then
    match pyListRemove s.registry c'.id with
    | .ok reg => .ok (c', { s with registry := reg })
    | .error e => .error e
  else
    .ok (c', s)

/-- Model of one `advance()` step of a counter, the per-item effect of the
iteration wrapper's loop body on the counter: `self.current += 1`. -/
def advance (α : Type) (c : ProgressBarCounter α) : ProgressBarCounter α :=
  { c with current := c.current + 1 }

/-- Iterated `advance`. -/
def advanceN (α : Type) (c : ProgressBarCounter α) : Nat → ProgressBarCounter α
  | 0 => c
  | k + 1 => advanceN α (advance α c) k

/-- Model of `k` executions of the loop body of
`ProgressBarCounter.__iter__`: each consumed item increments `current` and
calls `invalidate()` before the item is yielded. -/
def iterSteps (α : Type) (c : ProgressBarCounter α) (s : ProgressBarState) :
    Nat → ProgressBarCounter α × ProgressBarState
  | 0 => (c, s)
  | k + 1 => iterSteps α (advance α c) (invalidate s) k

/-- The ways an iteration of the wrapper can end: normal exhaustion of the
data source, early abandonment by the caller after `k` items (the generator
is closed, raising `GeneratorExit` at the yield), or an exception
propagating out of the iteration body after `k` items (thrown into the
generator at the yield). In every case the `finally` block runs once. -/
inductive ExitPath where
  | exhausted : ExitPath
  | abandoned : Nat → ExitPath
  | failed : Nat → ExitPath
deriving Repr, DecidableEq

/-- Number of items the counter's data source can yield: `len` of the item
list, `0` when there is no data source. -/
def itemCount (α : Type) (c : ProgressBarCounter α) : Nat :=
  match c.data with
  | none => 0
  | some d => d.items.length

/-- Number of loop-body executions for a given exit path: all items on
exhaustion, at most `k` on early abandonment or failure after `k` items. -/
def stepsOf (α : Type) (c : ProgressBarCounter α) : ExitPath → Nat
  | .exhausted => itemCount α c
  | .abandoned k => min k (itemCount α c)
  | .failed k => min k (itemCount α c)

/-- Model of a full run of `ProgressBarCounter.__iter__` for a given exit
path: the loop body runs once per consumed item, then the `finally` block
runs exactly once. -/
def iterRun (α : Type) (c : ProgressBarCounter α) (s : ProgressBarState)
    (e : ExitPath) : Except String (ProgressBarCounter α × ProgressBarState) :=
  let p := iterSteps α c s (stepsOf α c e)
  iterCleanup α p.1 p.2

/-- Items yielded to the caller during a run of the wrapper with the given
exit path. -/
def iterYields (α : Type) (c : ProgressBarCounter α) (e : ExitPath) : List α :=
  match c.data with
  | none => []
  | some d => d.items.take (stepsOf α c e)

/-- Model of `ProgressBarCounter.percentage`:
`current * 100 / max(total, 1)` when `total` is known, else `0`. -/
def percentage (α : Type) (c : ProgressBarCounter α) : ℚ :=
  match c.total with
  | none => 0
  | some t => (c.current : ℚ) * 100 / ((max t 1 : ℕ) : ℚ)

/-- Model of Python true division `a / b`: raises `ZeroDivisionError` when
`b == 0`. -/
def pyDiv (a b : ℚ) : Except String ℚ :=
  if b = 0 then .error "ZeroDivisionError" else .ok (a / b)

/-- The `percentage` getter with the fallibility of its division made
explicit, to state that it never raises. -/
def percentageE (α : Type) (c : ProgressBarCounter α) : Except String ℚ :=
  match c.total with
  | none => .ok 0
  | some t => pyDiv ((c.current : ℚ) * 100) ((max t 1 : ℕ) : ℚ)

/-- Model of `ProgressBarCounter.time_left`: `None` when
`self.total is None or not self.percentage` (for a float, `not x` tests
`x == 0`), otherwise `time_elapsed * (100 - percentage) / percentage`.
The elapsed time is passed explicitly. -/
def time_left (α : Type) (c : ProgressBarCounter α) (elapsed : ℚ) : Option ℚ :=
  if c.total = none ∨ percentage α c = 0 then none
  else some (elapsed * (100 - percentage α c) / percentage α c)

/-- The `time_left` getter with the fallibility of its division made
explicit, to state that it never raises. -/
def time_leftE (α : Type) (c : ProgressBarCounter α) (elapsed : ℚ) :
    Except String (Option ℚ) :=
  if c.total = none ∨ percentage α c = 0 then .ok none
  else (pyDiv (elapsed * (100 - percentage α c)) (percentage α c)).map some

/-- Model of `_ProgressControl.create_content`: for every registered counter
in registry order, call the formatter; a formatter failure (modelled as
`none`) is caught per counter and that line becomes the text `ERROR`. The
result is the list of produced lines (the `UIContent` has
`line_count = len(items)` and `get_line i = items[i]`). -/
def create_content (α : Type)
    (format : ProgressBarCounter α → Nat → Option String)
    (counters : List (ProgressBarCounter α)) (width : Nat) : List String :=
  counters.map fun pr =>
    match format pr width with
    | some text => text
    | none => "ERROR"

/-- Abstract host signal state: the currently installed SIGWINCH handler,
as an abstract numeric handler value. -/
structure SignalState where
  winch_handler : Nat
deriving Repr, DecidableEq

/-- Lifecycle flags of the `ProgressBar` context manager: whether the WINCH
hook was installed (`_has_sigwinch`), the saved previous handler
(`_previous_winch_handler`), whether the render app is running, whether
`app.exit()` was requested, and whether the render thread was started /
joined. -/
structure PBLifecycle where
  has_sigwinch : Bool
  previous_winch_handler : Nat
  app_is_running : Bool
  exit_requested : Bool
  thread_started : Bool
  thread_joined : Bool
deriving Repr, DecidableEq

/-- Model of `Application.exit()`: requests the render app to stop; raises
when the application is not running. -/
def appExit (st : PBLifecycle) : Except String PBLifecycle :=
  if st.app_is_running then .ok { st with exit_requested := true }
  else .error "Exception: application is not running"

/-- Model of the lifecycle part of `ProgressBar.__enter__`: start the render
thread (the app starts running), compute
`_has_sigwinch = hasattr(signal, SIGWINCH) and in_main_thread()`, and when
it holds save the current SIGWINCH handler and install the loop's resize
hook (abstract handler value `hookVal`). -/
def pbEnter (sys : SignalState) (st : PBLifecycle)
    (hasattr_sigwinch in_main : Bool) (hookVal : Nat) :
    SignalState × PBLifecycle :=
  let st1 := { st with thread_started := true, app_is_running := true }
  let has := hasattr_sigwinch && in_main
  if has then
    ({ winch_handler := hookVal },
     { st1 with has_sigwinch := true,
                previous_winch_handler := sys.winch_handler })
  else
    (sys, { st1 with has_sigwinch := false })

/-- Model of `ProgressBar.__exit__` (`stop()`): call `app.exit()` only when
the app is still running; when the WINCH hook was installed, remove it and
restore the saved previous handler; finally join the render thread (after
which the app is no longer running). -/
def pbExitE (sys : SignalState) (st : PBLifecycle) :
    Except String (SignalState × PBLifecycle) := do
  let st1 ← if st.app_is_running then appExit st else pure st
  let sys1 :=
    if st1.has_sigwinch then { winch_handler := st1.previous_winch_handler }
    else sys
  let st2 :=
    if st1.thread_started then
      { st1 with thread_joined := true, app_is_running := false }
    else st1
  pure (sys1, st2)

/-- Model of the host facts consulted by `create_output`
(`output/defaults.py`): `is_windows()`, `is_win_vt100_enabled()`,
`is_conemu_ansi()` and `get_term_environment_variable()`. -/
structure Host where
  is_windows : Bool
  win_vt100_enabled : Bool
  is_conemu_ansi : Bool
  term : Option String
deriving Repr, DecidableEq

/-- The output backends `create_output` can select; streams are abstract
numeric handles. -/
inductive OutputBackend where
  | windows10 : Nat → OutputBackend
  | conEmu : Nat → OutputBackend
  | win32 : Nat → OutputBackend
  | vt100 : Nat → Option String → OutputBackend
deriving Repr, DecidableEq

/-- The destination stream a backend was built on. -/
def OutputBackend.stream : OutputBackend → Nat
  | .windows10 s => s
  | .conEmu s => s
  | .win32 s => s
  | .vt100 s _ => s

/-- Model of `create_output` (`output/defaults.py`):
`stdout = stdout or sys.__stdout__`, then on Windows pick the Windows-10
VT100 backend when that console mode is enabled, else the ConEmu backend
when that emulator is detected, else the Win32 backend; on every other host
build the Vt100 backend from the stream and the TERM environment hint. -/
def create_output (host : Host) (stdout : Option Nat) (sys_stdout : Nat) :
    OutputBackend :=
  let out := stdout.getD sys_stdout
  if host.is_windows then
    if host.win_vt100_enabled then .windows10 out
    else if host.is_conemu_ansi then .conEmu out
    else .win32 out
  else
    .vt100 out host.term

/-! ### Helper lemmas about the iteration model -/

theorem advanceN_current (α : Type) (c : ProgressBarCounter α) (k : Nat) :
    (advanceN α c k).current = c.current + k := by
  induction k generalizing c with
  | zero => rfl
  | succ k ih => rw [advanceN, ih]; simp [advance]; omega

theorem advanceN_fields (α : Type) (c : ProgressBarCounter α) (k : Nat) :
    (advanceN α c k).id = c.id ∧
    (advanceN α c k).total = c.total ∧
    (advanceN α c k).done = c.done ∧
    (advanceN α c k).remove_when_done = c.remove_when_done ∧
    (advanceN α c k).data = c.data := by
  induction k generalizing c with
  | zero => exact ⟨rfl, rfl, rfl, rfl, rfl⟩
  | succ k ih => rw [advanceN]; exact ih (advance α c)

theorem iterSteps_fst (α : Type) (c : ProgressBarCounter α)
    (s : ProgressBarState) (k : Nat) :
    (iterSteps α c s k).1 = advanceN α c k := by
  induction k generalizing c s with
  | zero => rfl
  | succ k ih => rw [iterSteps, advanceN]; exact ih _ _

theorem iterSteps_registry (α : Type) (c : ProgressBarCounter α)
    (s : ProgressBarState) (k : Nat) :
    ((iterSteps α c s k).2).registry = s.registry := by
  induction k generalizing c s with
  | zero => rfl
  | succ k ih => rw [iterSteps]; exact ih _ _

theorem iterSteps_invalidations (α : Type) (c : ProgressBarCounter α)
    (s : ProgressBarState) (k : Nat) :
    ((iterSteps α c s k).2).invalidations = s.invalidations + k := by
  induction k generalizing c s with
  | zero => rfl
  | succ k ih => rw [iterSteps, ih]; simp [invalidate]; omega

theorem count_one_not_mem_erase {l : List Nat} {x : Nat}
    (h : l.count x = 1) : x ∉ l.erase x := by
  have h1 : (l.erase x).count x = l.count x - 1 := List.count_erase_self x l
  intro hmem
  have h2 : 0 < (l.erase x).count x := List.count_pos_iff.mpr hmem
  omega

theorem iterCleanup_mem (α : Type) (c : ProgressBarCounter α)
    (s : ProgressBarState) (h : c.remove_when_done = true → c.id ∈ s.registry) :
    iterCleanup α c s = .ok ({ c with done := true },
      if c.remove_when_done then
        { s with registry := s.registry.erase c.id }
      else s) := by
  unfold iterCleanup pyListRemove
  cases hr : c.remove_when_done with
  | false => simp
  | true => simp [h hr]


theorem percentageE_ok (α : Type) (c : ProgressBarCounter α) :
    percentageE α c = .ok (percentage α c) := by
  cases hc : c.total with
  | none => simp [percentage, percentageE, hc]
  | some t =>
    have hz : ((t : ℚ) ⊔ 1) ≠ 0 := by
      have h1 : (0 : ℚ) < (t : ℚ) ⊔ 1 :=
        lt_of_lt_of_le one_pos (le_max_right _ _)
      exact ne_of_gt h1
    simp [percentage, percentageE, pyDiv, hc, hz]

theorem time_leftE_ok (α : Type) (c : ProgressBarCounter α) (elapsed : ℚ) :
    time_leftE α c elapsed = .ok (time_left α c elapsed) := by
  unfold time_left time_leftE pyDiv
  by_cases h : c.total = none ∨ percentage α c = 0
  · simp [h]
  · have hp : ¬ percentage α c = 0 := fun hz => h (Or.inr hz)
    have ht : ¬ c.total = none := fun hz => h (Or.inl hz)
    simp [h, hp, ht, Except.map]

/-! ### Claim theorems -/

/-- C2: `time_left` returns the unknown sentinel `None` exactly when `total`
is unknown or `percentage` equals `0`; otherwise it returns
`elapsed * (100 - percentage) / percentage`; and it never raises (its
explicit-failure version always returns `ok`, never a stand-in value for
the unknown case). -/
theorem C2_time_left_spec (α : Type) (c : ProgressBarCounter α) (elapsed : ℚ) :
    (time_left α c elapsed = none ↔ (c.total = none ∨ percentage α c = 0)) ∧
    (¬(c.total = none ∨ percentage α c = 0) →
      time_left α c elapsed =
        some (elapsed * (100 - percentage α c) / percentage α c)) ∧
    time_leftE α c elapsed = .ok (time_left α c elapsed) := by
  unfold time_left time_leftE pyDiv
  by_cases h : c.total = none ∨ percentage α c = 0
  · simp [h]
  · have hp : ¬ percentage α c = 0 := fun hz => h (Or.inr hz)
    have ht : ¬ c.total = none := fun hz => h (Or.inl hz)
    simp [h, hp, ht, Except.map]

/-- Witness for C2 at a concrete counter (`current = 5`, `total = 10`,
`elapsed = 7`): `percentage = 50` and `time_left = 7`. -/
theorem C2_time_left_spec_witness :
    time_left Nat ⟨0, "", 5, some 10, false, false, none⟩ 7 = some 7 := by
  have hp :
      percentage Nat ⟨0, "", 5, some 10, false, false, none⟩ = 50 := by
    norm_num [percentage, show (max 10 1 : ℕ) = 10 from rfl]
  have h :=
    (C2_time_left_spec Nat ⟨0, "", 5, some 10, false, false, none⟩ 7).2.1
      (by simp [hp])
  rw [h, hp]; norm_num

/-- C3 as stated fails at `N = 0`: a counter created with `total = 0`,
after `0` advance steps, reports `percentage = 0`, not `100`. -/
theorem C3_counterexample :
    percentage Nat
      (advanceN Nat (mkCounter Nat 0 none "" false (some 0)) 0) ≠ 100 := by
  norm_num [percentage, advanceN, mkCounter]

/-- C3 amended: for a counter created with known total `N ≥ 1`, after
exactly `N` advance steps (each incrementing `current` by one, as the
iteration wrapper does per item) `percentage` returns `100`; for `N = 0`
the getter instead returns `0`. -/
theorem C3_percentage_after_N (N : Nat) (hN : 1 ≤ N) (id : Nat)
    (label : String) (rwd : Bool) (data : Option (DataSource Nat)) :
    percentage Nat (advanceN Nat (mkCounter Nat id data label rwd (some N)) N)
      = 100 := by
  obtain ⟨-, htot, -, -, -⟩ :=
    advanceN_fields Nat (mkCounter Nat id data label rwd (some N)) N
  have hcur := advanceN_current Nat (mkCounter Nat id data label rwd (some N)) N
  have htot2 :
      (advanceN Nat (mkCounter Nat id data label rwd (some N)) N).total
        = some N := by
    rw [htot]; rfl
  have hcur2 :
      (advanceN Nat (mkCounter Nat id data label rwd (some N)) N).current
        = N := by
    rw [hcur]; simp [mkCounter]
  have hmax : max N 1 = N := by omega
  have hNz : (N : ℚ) ≠ 0 := Nat.cast_ne_zero.mpr (by omega)
  simp only [percentage, htot2, hcur2, hmax]
  field_simp

/-- Witness for C3's amended theorem at `N = 2`. -/
theorem C3_percentage_after_N_witness :
    percentage Nat (advanceN Nat (mkCounter Nat 0 none "" false (some 2)) 2)
      = 100 :=
  C3_percentage_after_N 2 (by decide) 0 "" false none

/-- C4: `percentage` equals `current * 100 / max(total, 1)` when `total` is
known and `0` when `total` is unknown (`None`); a counter with unknown
total reports `percentage = 0` throughout, after any number of advance
steps; and the getter never raises (the divisor `max(total, 1)` is never
zero, so its explicit-failure version always returns `ok`). -/
theorem C4_percentage_spec (α : Type) (c : ProgressBarCounter α) (k : Nat) :
    (∀ t, c.total = some t →
       percentage α c = (c.current : ℚ) * 100 / ((max t 1 : ℕ) : ℚ)) ∧
    (c.total = none →
       percentage α c = 0 ∧ percentage α (advanceN α c k) = 0) ∧
    percentageE α c = .ok (percentage α c) := by
  obtain ⟨-, htot, -, -, -⟩ := advanceN_fields α c k
  refine ⟨?_, ?_, ?_⟩
  · intro t ht
    simp [percentage, ht]
  · intro h
    constructor
    · simp [percentage, h]
    · simp [percentage, htot, h]
  · exact percentageE_ok α c

/-- Witness for C4 at a concrete counter with unknown total: after 5 more
advance steps the percentage is still `0`. -/
theorem C4_percentage_spec_witness :
    percentage Nat (advanceN Nat ⟨0, "", 3, none, false, false, none⟩ 5) = 0 :=
  ((C4_percentage_spec Nat ⟨0, "", 3, none, false, false, none⟩ 5).2.1 rfl).2

/-- C1: for a counter whose id occurs exactly once in the `ProgressBar`
registry, iterating the wrapper leaves the registry untouched at every
point during iteration (so the counter stays registered throughout), and on
every exit path — normal exhaustion, early abandonment after `k` items, or
a failure after `k` items — the single cleanup step of the `finally` block
succeeds, sets the counter's `done` flag to `true`, removes the counter
from the registry exactly when `remove_when_done` is set (leaving it absent
immediately after iteration ends), and leaves the registry unchanged
otherwise. -/
theorem C1_iter_cleanup (α : Type) (c : ProgressBarCounter α)
    (s : ProgressBarState) (e : ExitPath)
    (hcount : s.registry.count c.id = 1) :
    c.id ∈ s.registry ∧
    (∀ k, ((iterSteps α c s k).2).registry = s.registry) ∧
    ∃ c' s', iterRun α c s e = .ok (c', s') ∧
      c'.done = true ∧ c'.id = c.id ∧
      c'.current = c.current + stepsOf α c e ∧
      (c.remove_when_done = true → c.id ∉ s'.registry) ∧
      (c.remove_when_done = false → s'.registry = s.registry) := by
  have hmem : c.id ∈ s.registry := List.count_pos_iff.mp (by omega)
  refine ⟨hmem, fun k => iterSteps_registry α c s k, ?_⟩
  obtain ⟨hid, htot, hdone, hrwd, hdata⟩ :=
    advanceN_fields α c (stepsOf α c e)
  have hfst := iterSteps_fst α c s (stepsOf α c e)
  have hreg := iterSteps_registry α c s (stepsOf α c e)
  have hcur := advanceN_current α c (stepsOf α c e)
  have hc1 : (iterSteps α c s (stepsOf α c e)).1.remove_when_done
      = c.remove_when_done := by rw [hfst]; exact hrwd
  have hc2 : (iterSteps α c s (stepsOf α c e)).1.id = c.id := by
    rw [hfst]; exact hid
  have hc3 : (iterSteps α c s (stepsOf α c e)).1.current
      = c.current + stepsOf α c e := by rw [hfst]; exact hcur
  have hclean := iterCleanup_mem α (iterSteps α c s (stepsOf α c e)).1
    (iterSteps α c s (stepsOf α c e)).2
    (by intro _; rw [hreg, hc2]; exact hmem)
  refine ⟨_, _, hclean, rfl, hc2, hc3, ?_, ?_⟩
  · intro hr
    rw [hc1, hr]
    simp only [if_true]
    rw [hreg, hc2]
    exact count_one_not_mem_erase hcount
  · intro hr
    rw [hc1, hr]
    simp only [Bool.false_eq_true, if_false]
    exact hreg

/-- Witness for C1: a counter over `[10, 20, 30]` with
`remove_when_done = true`, registered once, abandoned after one item. -/
theorem C1_iter_cleanup_witness :
    (([5, 1, 7] : List Nat).count 1 = 1) ∧
    (1 ∈ ([5, 1, 7] : List Nat) ∧
     (∀ k, ((iterSteps Nat ⟨1, "", 0, some 3, false, true, some ⟨[10, 20, 30], true⟩⟩
        ⟨[5, 1, 7], 0⟩ k).2).registry = [5, 1, 7]) ∧
     ∃ c' s', iterRun Nat ⟨1, "", 0, some 3, false, true, some ⟨[10, 20, 30], true⟩⟩
        ⟨[5, 1, 7], 0⟩ (.abandoned 1) = .ok (c', s') ∧
       c'.done = true ∧ c'.id = 1 ∧
       c'.current = 0 + stepsOf Nat ⟨1, "", 0, some 3, false, true, some ⟨[10, 20, 30], true⟩⟩ (.abandoned 1) ∧
       (true = true → 1 ∉ s'.registry) ∧
       (true = false → s'.registry = [5, 1, 7])) :=
  ⟨by decide,
   C1_iter_cleanup Nat ⟨1, "", 0, some 3, false, true, some ⟨[10, 20, 30], true⟩⟩
     ⟨[5, 1, 7], 0⟩ (.abandoned 1) (by decide)⟩

/-- C10: a counter created through `ProgressBar.__call__` without a data
source (`data = None`) yields no items when its wrapper is iterated, yet
the cleanup still runs on every exit path: `done` becomes `true`, the
counter is removed from the registry when `remove_when_done` is set, and
the registry is unchanged otherwise; meanwhile `current` stays `0`, `total`
is `None`, and `percentage` stays `0`. -/
theorem C10_no_data_counter (s : ProgressBarState) (nextId : Nat)
    (label : String) (rwd : Bool) (e : ExitPath)
    (hfresh : nextId ∉ s.registry) :
    iterYields Nat (pbCall Nat s nextId none label rwd none).1 e = [] ∧
    ∃ c' s',
      iterRun Nat (pbCall Nat s nextId none label rwd none).1
        (pbCall Nat s nextId none label rwd none).2 e = .ok (c', s') ∧
      c'.done = true ∧ c'.current = 0 ∧ c'.total = none ∧
      percentage Nat c' = 0 ∧
      (rwd = true → c'.id ∉ s'.registry) ∧
      (rwd = false → s'.registry = s.registry ++ [nextId]) := by
  have hyield :
      iterYields Nat (pbCall Nat s nextId none label rwd none).1 e = [] := by
    simp [iterYields, pbCall, mkCounter]
  refine ⟨hyield, ?_⟩
  have hsteps :
      stepsOf Nat (pbCall Nat s nextId none label rwd none).1 e = 0 := by
    cases e <;> simp [stepsOf, itemCount, pbCall, mkCounter]
  have hmem : nextId ∈ s.registry ++ [nextId] := by simp
  have hclean := iterCleanup_mem Nat
    (pbCall Nat s nextId none label rwd none).1
    (pbCall Nat s nextId none label rwd none).2
    (by intro _; simp only [pbCall, mkCounter]; exact hmem)
  have hrun :
      iterRun Nat (pbCall Nat s nextId none label rwd none).1
        (pbCall Nat s nextId none label rwd none).2 e
      = iterCleanup Nat (pbCall Nat s nextId none label rwd none).1
          (pbCall Nat s nextId none label rwd none).2 := by
    unfold iterRun
    rw [hsteps]
    rfl
  refine ⟨_, _, hrun.trans hclean, rfl, rfl, rfl, ?_, ?_, ?_⟩
  · simp [percentage, pbCall, mkCounter]
  · intro hr
    simp only [pbCall, mkCounter] at *
    rw [hr]
    simp only [if_true]
    have hcount : (s.registry ++ [nextId]).count nextId = 1 := by
      rw [List.count_append]
      simp [List.count_eq_zero.mpr hfresh]
    exact count_one_not_mem_erase hcount
  · intro hr
    simp [pbCall, mkCounter, hr]

/-- Witness for C10: a fresh counter with no data, `remove_when_done`,
registry previously `[4]`, exhausted immediately. -/
theorem C10_no_data_counter_witness :
    (7 ∉ (⟨[4], 0⟩ : ProgressBarState).registry) ∧
    (iterYields Nat (pbCall Nat ⟨[4], 0⟩ 7 none "" true none).1 .exhausted = [] ∧
     ∃ c' s',
       iterRun Nat (pbCall Nat ⟨[4], 0⟩ 7 none "" true none).1
         (pbCall Nat ⟨[4], 0⟩ 7 none "" true none).2 .exhausted = .ok (c', s') ∧
       c'.done = true ∧ c'.current = 0 ∧ c'.total = none ∧
       percentage Nat c' = 0 ∧
       (true = true → c'.id ∉ s'.registry) ∧
       (true = false → s'.registry = [4] ++ [7])) :=
  ⟨by decide,
   C10_no_data_counter ⟨[4], 0⟩ 7 "" true .exhausted (by decide)⟩

/-- C5: building a frame calls the formatter once per registered counter in
registry order — the produced content has exactly one line per registered
counter (at every position the line is the formatter's text for the counter
at that position) — and a formatter failure on some counter is caught per
counter: that counter's line becomes the placeholder text `ERROR` while
every other counter's line is still produced. -/
theorem C5_create_content_spec (α : Type)
    (format : ProgressBarCounter α → Nat → Option String)
    (counters : List (ProgressBarCounter α)) (width : Nat) :
    (create_content α format counters width).length = counters.length ∧
    (∀ (i : Nat), (create_content α format counters width)[i]? =
      (counters[i]?).map fun pr =>
        match format pr width with
        | some text => text
        | none => "ERROR") ∧
    (∀ (i : Nat) (pr : ProgressBarCounter α),
      counters[i]? = some pr → format pr width = none →
      (create_content α format counters width)[i]? = some "ERROR") ∧
    (∀ (i : Nat) (pr : ProgressBarCounter α) (text : String),
      counters[i]? = some pr → format pr width = some text →
      (create_content α format counters width)[i]? = some text) := by
  refine ⟨by simp [create_content], ?_, ?_, ?_⟩
  · intro i
    simp [create_content, List.getElem?_map]
  · intro i pr hpr hfail
    simp [create_content, List.getElem?_map, hpr, hfail]
  · intro i pr text hpr hok
    simp [create_content, List.getElem?_map, hpr, hok]

/-- Witness for C5: two counters, the formatter failing on the second:
the frame still has two lines, and they are the text and the placeholder. -/
theorem C5_create_content_spec_witness :
    create_content Nat
      (fun pr _ => if pr.id = 1 then none else some "line")
      [⟨0, "", 0, none, false, false, none⟩,
       ⟨1, "", 0, none, false, false, none⟩] 80 = ["line", "ERROR"] := by
  have h := C5_create_content_spec Nat
    (fun pr _ => if pr.id = 1 then none else some "line")
    [⟨0, "", 0, none, false, false, none⟩,
     ⟨1, "", 0, none, false, false, none⟩] 80
  have h0 := (h.2.2.2) 0 ⟨0, "", 0, none, false, false, none⟩ "line"
    (by decide) (by decide)
  have h1 := (h.2.2.1) 1 ⟨1, "", 0, none, false, false, none⟩
    (by decide) (by decide)
  have hlen := h.1
  apply List.ext_getElem?
  intro i
  match i with
  | 0 => simpa using h0
  | 1 => simpa using h1
  | (n + 2) =>
    have : (create_content Nat
      (fun pr _ => if pr.id = 1 then none else some "line")
      [⟨0, "", 0, none, false, false, none⟩,
       ⟨1, "", 0, none, false, false, none⟩] 80).length = 2 := by
      simpa using hlen
    simp [List.getElem?_eq_none, this]

/-- C6 as stated fails: the cleanup path can raise. In the reachable state
below, a counter created with `remove_when_done = True` over a two-item
list is iterated to exhaustion once (first conjunct: the run succeeds and
removes the counter from the registry) and then iterated again — the
second run's cleanup calls `counters.remove(self)` with the counter absent
from the registry and raises `ValueError` (second conjunct). -/
theorem C6_counterexample :
    iterRun Nat (pbCall Nat ⟨[], 0⟩ 0 (some ⟨[1, 2], true⟩) "" true none).1
        (pbCall Nat ⟨[], 0⟩ 0 (some ⟨[1, 2], true⟩) "" true none).2 .exhausted
      = .ok (⟨0, "", 2, some 2, true, true, some ⟨[1, 2], true⟩⟩, ⟨[], 2⟩) ∧
    iterRun Nat
        (⟨0, "", 2, some 2, true, true, some ⟨[1, 2], true⟩⟩ :
          ProgressBarCounter Nat)
        (⟨[], 2⟩ : ProgressBarState) .exhausted = .error "ValueError" :=
  ⟨rfl, rfl⟩

/-- C6 amended: the metric getters never raise — the explicit-failure
versions of `percentage` and `time_left` always return `ok` — and the
iteration wrapper's cleanup path never raises provided that, whenever the
counter was created with `remove_when_done`, it is still in the registry
when cleanup runs (as is the case when the wrapper is iterated at most
once); the cleanup of an already-removed counter instead raises
`ValueError`. `invalidate` is a total O(1) scheduling step in this model. -/
theorem C6_no_raise (α : Type) (c : ProgressBarCounter α)
    (s : ProgressBarState) (elapsed : ℚ)
    (h : c.remove_when_done = true → c.id ∈ s.registry) :
    percentageE α c = .ok (percentage α c) ∧
    time_leftE α c elapsed = .ok (time_left α c elapsed) ∧
    ∃ c' s', iterCleanup α c s = .ok (c', s') :=
  ⟨percentageE_ok α c, time_leftE_ok α c elapsed,
   ⟨_, _, iterCleanup_mem α c s h⟩⟩

/-- Witness for C6's amended theorem at a concrete registered counter. -/
theorem C6_no_raise_witness :
    percentageE Nat ⟨0, "", 1, some 4, false, true, none⟩
        = .ok (percentage Nat ⟨0, "", 1, some 4, false, true, none⟩) ∧
    time_leftE Nat ⟨0, "", 1, some 4, false, true, none⟩ 3
        = .ok (time_left Nat ⟨0, "", 1, some 4, false, true, none⟩ 3) ∧
    ∃ c' s', iterCleanup Nat ⟨0, "", 1, some 4, false, true, none⟩ ⟨[0], 5⟩
        = .ok (c', s') :=
  C6_no_raise Nat ⟨0, "", 1, some 4, false, true, none⟩ ⟨[0], 5⟩ 3
    (fun _ => by decide)

/-- C7: modelling `__enter__` followed by `__exit__` (with the app possibly
having exited abnormally in between), `stop()` never raises — it requests
app exit only when the app is still running, so `exit_requested` is set
exactly when the app had not already exited; when the resize hook was
installed at start (`SIGWINCH` available and on the main thread), the
`SIGWINCH` handler, changed to the hook at start, is restored to exactly
the value that preceded installation; when no hook was installed the
handler is untouched throughout; and the render thread is joined before
returning. -/
theorem C7_stop_spec (sys : SignalState) (st0 : PBLifecycle)
    (hasattr_sigwinch in_main abnormal : Bool) (hookVal : Nat)
    (hreq : st0.exit_requested = false) :
    ∃ sys' st',
      pbExitE (pbEnter sys st0 hasattr_sigwinch in_main hookVal).1
        (if abnormal then
          { (pbEnter sys st0 hasattr_sigwinch in_main hookVal).2 with
              app_is_running := false }
         else (pbEnter sys st0 hasattr_sigwinch in_main hookVal).2)
        = .ok (sys', st') ∧
      (hasattr_sigwinch && in_main = true →
        (pbEnter sys st0 hasattr_sigwinch in_main hookVal).1.winch_handler
            = hookVal ∧
        sys'.winch_handler = sys.winch_handler) ∧
      (hasattr_sigwinch && in_main = false →
        (pbEnter sys st0 hasattr_sigwinch in_main hookVal).1 = sys ∧
        sys' = sys) ∧
      st'.thread_joined = true ∧
      st'.app_is_running = false ∧
      (st'.exit_requested = true ↔ abnormal = false) := by
  cases hasattr_sigwinch <;> cases in_main <;> cases abnormal <;>
    refine ⟨_, _, rfl, ?_, ?_, ?_, ?_, ?_⟩ <;>
      simp [pbEnter, pbExitE, appExit, hreq]

/-- Witness for C7 with the hook installed and a normal exit. -/
theorem C7_stop_spec_witness :
    ((⟨false, 0, false, false, false, false⟩ : PBLifecycle).exit_requested
        = false) ∧
    (∃ sys' st',
      pbExitE (pbEnter ⟨42⟩ ⟨false, 0, false, false, false, false⟩
          true true 99).1
        (if false then
          { (pbEnter ⟨42⟩ ⟨false, 0, false, false, false, false⟩
              true true 99).2 with app_is_running := false }
         else (pbEnter ⟨42⟩ ⟨false, 0, false, false, false, false⟩
              true true 99).2)
        = .ok (sys', st') ∧
      (true && true = true →
        (pbEnter ⟨42⟩ ⟨false, 0, false, false, false, false⟩
            true true 99).1.winch_handler = 99 ∧
        sys'.winch_handler = 42) ∧
      (true && true = false →
        (pbEnter ⟨42⟩ ⟨false, 0, false, false, false, false⟩
            true true 99).1 = ⟨42⟩ ∧
        sys' = ⟨42⟩) ∧
      st'.thread_joined = true ∧
      st'.app_is_running = false ∧
      (st'.exit_requested = true ↔ false = false)) :=
  ⟨rfl, C7_stop_spec ⟨42⟩ ⟨false, 0, false, false, false, false⟩
    true true false 99 rfl⟩

/-- C8: `new_counter` (that is, `ProgressBar.__call__`) builds a counter
whose `total` is the explicitly supplied total when one is given, else
`len(data)` when the data source supports `len`, else `None`; the counter
starts with `current = 0` and `done = False`, it is appended at the end of
the registry (preserving insertion order), and the operation returns that
counter (whose `__iter__` is the iteration wrapper bound to it). -/
theorem C8_new_counter_spec (α : Type) (s : ProgressBarState) (nextId : Nat)
    (data : Option (DataSource α)) (label : String) (rwd : Bool)
    (total : Option Nat) :
    (∀ t, total = some t →
      (pbCall α s nextId data label rwd total).1.total = some t) ∧
    (∀ d, total = none → data = some d → d.sized = true →
      (pbCall α s nextId data label rwd total).1.total
        = some d.items.length) ∧
    (∀ d, total = none → data = some d → d.sized = false →
      (pbCall α s nextId data label rwd total).1.total = none) ∧
    (total = none → data = none →
      (pbCall α s nextId data label rwd total).1.total = none) ∧
    (pbCall α s nextId data label rwd total).1.current = 0 ∧
    (pbCall α s nextId data label rwd total).1.done = false ∧
    (pbCall α s nextId data label rwd total).1.remove_when_done = rwd ∧
    (pbCall α s nextId data label rwd total).1.label = label ∧
    (pbCall α s nextId data label rwd total).1.data = data ∧
    (pbCall α s nextId data label rwd total).2.registry
      = s.registry ++ [(pbCall α s nextId data label rwd total).1.id] := by
  refine ⟨?_, ?_, ?_, ?_, rfl, rfl, rfl, rfl, rfl, rfl⟩
  · intro t ht
    simp [pbCall, mkCounter, ht]
  · intro d ht hd hs
    simp [pbCall, mkCounter, ht, hd, hs]
  · intro d ht hd hs
    simp [pbCall, mkCounter, ht, hd, hs]
  · intro ht hd
    simp [pbCall, mkCounter, ht, hd]

/-- Witness for C8: a sized two-item source with no explicit total. -/
theorem C8_new_counter_spec_witness :
    (pbCall Nat ⟨[3], 1⟩ 9 (some ⟨[7, 8], true⟩) "work" false none).1.total
      = some 2 :=
  (C8_new_counter_spec Nat ⟨[3], 1⟩ 9 (some ⟨[7, 8], true⟩) "work" false
      none).2.1 ⟨[7, 8], true⟩ rfl rfl rfl

/-- C9: `create_output` selects the backend by host: on a Windows host it
returns the VT100-capable Windows-10 backend when that console mode is
available, else the ConEmu backend when that emulator is detected, else the
native Win32 backend; on every other host it returns the VT100 backend
built from the destination stream and the TERM environment hint; and the
destination stream defaults to the process's original stdout
(`sys.__stdout__`) when none is given. -/
theorem C9_create_output_spec (host : Host) (stdout : Option Nat)
    (sys_stdout : Nat) :
    (host.is_windows = true → host.win_vt100_enabled = true →
      create_output host stdout sys_stdout
        = .windows10 (stdout.getD sys_stdout)) ∧
    (host.is_windows = true → host.win_vt100_enabled = false →
      host.is_conemu_ansi = true →
      create_output host stdout sys_stdout
        = .conEmu (stdout.getD sys_stdout)) ∧
    (host.is_windows = true → host.win_vt100_enabled = false →
      host.is_conemu_ansi = false →
      create_output host stdout sys_stdout
        = .win32 (stdout.getD sys_stdout)) ∧
    (host.is_windows = false →
      create_output host stdout sys_stdout
        = .vt100 (stdout.getD sys_stdout) host.term) ∧
    (stdout = none →
      (create_output host stdout sys_stdout).stream = sys_stdout) ∧
    (∀ out, stdout = some out →
      (create_output host stdout sys_stdout).stream = out) := by
  obtain ⟨w, v, ce, t⟩ := host
  refine ⟨?_, ?_, ?_, ?_, ?_, ?_⟩ <;>
    cases w <;> cases v <;> cases ce <;>
      simp [create_output, OutputBackend.stream] <;>
        first
          | rfl
          | (intro h; simp [h, OutputBackend.stream])
          | (intro a h; simp [h, OutputBackend.stream])

/-- Witness for C9 on a non-Windows host with no explicit stream. -/
theorem C9_create_output_spec_witness :
    create_output ⟨false, false, false, some "xterm"⟩ none 1
      = .vt100 1 (some "xterm") :=
  (C9_create_output_spec ⟨false, false, false, some "xterm"⟩ none 1).2.2.2.1
    rfl
